import Mathlib

/-!
Shallow embedding of the `supabase-typed-query` repository: a typed
query-builder façade over a Supabase-style client.  The embedded source
files are `src/types.ts` (schema description and query-builder surface)
and the two `Entity` factories (`src/entity/Entity.ts`, non-generic, and
the schema-generic factory from the unnamed source file).  The modules
`entity/core` and `entity/types` that the factories import are not part
of the provided sources; their behaviour is modelled from the spec where
a claim depends on it, and each such definition is marked
`Modelled from the spec:` in its doc comment.
-/

/-- One chained call on the query builder returned by `client.from`,
after `src/types.ts` interface `QueryBuilder` (lines 100-121).  Values are
`unknown` in the source and are embedded as opaque strings; row payloads
likewise.  Only the methods the generated operations can emit are kept. -/
inductive BuilderCall where
  | select (columns : String)
  | insert (rows : List String)
  | update (row : String)
  | upsert (rows : List String) (onConflict : Option String)
  | delete
  | eq (column : String) (value : String)
  | is (column : String) (value : Option Bool)
  | in' (column : String) (values : List String)
  | order (column : String) (ascending : Bool)
  | single
  | limit (count : Nat)
deriving DecidableEq, Repr

/-- The response of the wrapped client to one executed query: a data
payload and an error, both opaque, after the promise type of
`QueryBuilder` in `src/types.ts` (`data: unknown; error: unknown`). -/
structure QueryResult where
  data : Option String
  error : Option String
deriving DecidableEq, Repr

/-- The wrapped client, after `SupabaseClientType` in `src/types.ts`
(lines 134-136): its only member is `from`.  The embedding folds the
whole request-response exchange into one oracle: `respond table calls`
is the client's answer to the chained call sequence `calls` issued on
the builder obtained from `from(table)`. -/
structure Client where
  respond : String → List BuilderCall → QueryResult

/-- Modelled from the spec: the soft-delete filter mode computed by
`getSoftDeleteMode` in the missing `entity/core` module.  The spec's
glossary: a filter mode excluding rows flagged as logically deleted
rather than physically removed; it is either off or on. -/
inductive SoftDeleteMode where
  | disabled
  | excludeDeleted
deriving DecidableEq, Repr

/-- Modelled from the spec: `getSoftDeleteMode` from the missing
`entity/core` module, as called by both factories on `config.softDelete`:
soft delete configured on yields the excluding mode. -/
def getSoftDeleteMode (softDelete : Bool) : SoftDeleteMode :=
  if softDelete then SoftDeleteMode.excludeDeleted else SoftDeleteMode.disabled

/-- Modelled from the spec: the single filter-builder call the
soft-delete mode adds, excluding rows flagged as logically deleted
(a `deleted_at is null` filter on the builder's `is` method). -/
def softDeleteFilter : BuilderCall :=
  BuilderCall.is "deleted_at" Option.none

/-- Modelled from the spec: `EntityConfig` from the missing
`entity/types` module.  Both factories read `config.softDelete`; the
generic factory also destructures `config.schema`. -/
structure EntityConfig where
  softDelete : Bool
  schema : Option String
deriving DecidableEq, Repr

/-- Modelled from the spec: `GetItemParams` from the missing
`entity/types` module — parameters of `getItem`: id, where conditions
and is conditions (field `where` is embedded as `where_`). -/
structure GetItemParams where
  id : Option String
  where_ : List (String × String)
  is : List (String × Option Bool)
deriving DecidableEq, Repr

/-- Modelled from the spec: `GetItemsParams` from the missing
`entity/types` module — parameters of `getItems`: where, is, wherein
and order (an order entry is a column with its direction). -/
structure GetItemsParams where
  where_ : List (String × String)
  is : List (String × Option Bool)
  wherein : List (String × List String)
  order : List (String × Bool)
deriving DecidableEq, Repr

/-- Modelled from the spec: `AddItemsParams` from the missing
`entity/types` module — an items array. -/
structure AddItemsParams where
  items : List String
deriving DecidableEq, Repr

/-- Modelled from the spec: `UpdateItemParams` from the missing
`entity/types` module — id, item data, and optional filters. -/
structure UpdateItemParams where
  id : String
  item : String
  where_ : List (String × String)
  is : List (String × Option Bool)
deriving DecidableEq, Repr

/-- Modelled from the spec: `UpdateItemsParams` from the missing
`entity/types` module — items array, identity, and optional filters. -/
structure UpdateItemsParams where
  items : List String
  identity : List String
  where_ : List (String × String)
  is : List (String × Option Bool)
deriving DecidableEq, Repr

/-- Modelled from the spec: `UpsertItemsParams` from the missing
`entity/types` module — items array and identity columns. -/
structure UpsertItemsParams where
  items : List String
  identity : List String
deriving DecidableEq, Repr

/-- Modelled from the spec: `DeleteItemParams` from the missing
`entity/types` module — where conditions. -/
structure DeleteItemParams where
  where_ : List (String × String)
deriving DecidableEq, Repr

/-- Modelled from the spec: `DeleteItemsParams` from the missing
`entity/types` module — where conditions. -/
structure DeleteItemsParams where
  where_ : List (String × String)
deriving DecidableEq, Repr

/-- Chained issue of one `eq` filter per `where` entry, mimicking the
builder chain (each entry appends one call to the accumulated chain). -/
def applyWhere (acc : List BuilderCall) (ws : List (String × String)) : List BuilderCall :=
  ws.foldl (fun a w => a ++ [BuilderCall.eq w.1 w.2]) acc

/-- Chained issue of one `is` filter per `is` entry. -/
def applyIs (acc : List BuilderCall) (ws : List (String × Option Bool)) : List BuilderCall :=
  ws.foldl (fun a w => a ++ [BuilderCall.is w.1 w.2]) acc

/-- Chained issue of one `in` filter per `wherein` entry. -/
def applyWherein (acc : List BuilderCall) (ws : List (String × List String)) : List BuilderCall :=
  ws.foldl (fun a w => a ++ [BuilderCall.in' w.1 w.2]) acc

/-- Chained issue of one `order` call per `order` entry. -/
def applyOrder (acc : List BuilderCall) (ws : List (String × Bool)) : List BuilderCall :=
  ws.foldl (fun a w => a ++ [BuilderCall.order w.1 w.2]) acc

/-- Chained issue of one `eq` filter on the id column when an id was
given. -/
def applyId (acc : List BuilderCall) (id : Option String) : List BuilderCall :=
  match id with
  | Option.none => acc
  | Option.some v => acc ++ [BuilderCall.eq "id" v]

/-- The filter the soft-delete mode appends: nothing when disabled, the
soft-delete filter when excluding. -/
def applySoftDelete (acc : List BuilderCall) (mode : SoftDeleteMode) : List BuilderCall :=
  match mode with
  | SoftDeleteMode.disabled => acc
  | SoftDeleteMode.excludeDeleted => acc ++ [softDeleteFilter]

/-- Modelled from the spec: the call sequence `makeGetItem`'s query
issues — a select, then per parameter entry its filter call, then the
soft-delete mode's filter. -/
def getItemCalls (mode : SoftDeleteMode) (p : GetItemParams) : List BuilderCall :=
  applySoftDelete ((applyIs (applyWhere (applyId [BuilderCall.select "*"] p.id) p.where_) p.is)) mode

/-- Modelled from the spec: the call sequence `makeGetItems`'s query
issues — a select, then per parameter entry its filter or order call,
then the soft-delete mode's filter. -/
def getItemsCalls (mode : SoftDeleteMode) (p : GetItemsParams) : List BuilderCall :=
  applySoftDelete (applyOrder (applyWherein (applyIs (applyWhere [BuilderCall.select "*"] p.where_) p.is) p.wherein) p.order) mode

/-- Modelled from the spec: the call sequence of `addItems` — an insert
of the items array, returning the inserted rows. -/
def addItemsCalls (p : AddItemsParams) : List BuilderCall :=
  [BuilderCall.insert p.items, BuilderCall.select "*"]

/-- Modelled from the spec: the call sequence of `updateItem` — an
update of the item data keyed by id with the optional filters. -/
def updateItemCalls (p : UpdateItemParams) : List BuilderCall :=
  applyIs (applyWhere [BuilderCall.update p.item, BuilderCall.eq "id" p.id] p.where_) p.is ++ [BuilderCall.select "*"]

/-- Modelled from the spec: the call sequence of `updateItems` — an
upsert of the items array on the identity columns with the optional
filters. -/
def updateItemsCalls (p : UpdateItemsParams) : List BuilderCall :=
  applyIs (applyWhere [BuilderCall.upsert p.items (Option.some (String.intercalate "," p.identity))] p.where_) p.is ++ [BuilderCall.select "*"]

/-- Modelled from the spec: the call sequence of `upsertItems` — an
upsert of the items array on the identity columns, returning the rows. -/
def upsertItemsCalls (p : UpsertItemsParams) : List BuilderCall :=
  [BuilderCall.upsert p.items (Option.some (String.intercalate "," p.identity)), BuilderCall.select "*"]

/-- Modelled from the spec: the call sequence of `deleteItem` — a
delete under the where conditions, returning the deleted row. -/
def deleteItemCalls (p : DeleteItemParams) : List BuilderCall :=
  applyWhere [BuilderCall.delete] p.where_ ++ [BuilderCall.select "*"]

/-- Modelled from the spec: the call sequence of `deleteItems` — a
delete under the where conditions, returning the deleted rows. -/
def deleteItemsCalls (p : DeleteItemsParams) : List BuilderCall :=
  applyWhere [BuilderCall.delete] p.where_ ++ [BuilderCall.select "*"]

/-- The chainable execution object a get operation returns: it records
the client, the table the chain started from (`client.from(table)`) and
the chained filter calls issued so far. -/
structure SelectQuery where
  client : Client
  table : String
  calls : List BuilderCall

/-- Modelled from the spec: the `.many()` execution — the query as
chained, answered by the wrapped client and returned unchanged. -/
def SelectQuery.many (q : SelectQuery) : QueryResult :=
  q.client.respond q.table q.calls

/-- Modelled from the spec: the `.one()` execution — the chain closed
with `single`, answered by the wrapped client and returned unchanged. -/
def SelectQuery.one (q : SelectQuery) : QueryResult :=
  q.client.respond q.table (q.calls ++ [BuilderCall.single])

/-- Modelled from the spec: the `.first()` execution — the chain closed
with `limit 1`, answered by the wrapped client and returned unchanged. -/
def SelectQuery.first (q : SelectQuery) : QueryResult :=
  q.client.respond q.table (q.calls ++ [BuilderCall.limit 1])

/-- Modelled from the spec: the raise-on-error adapter of the `OrThrow`
execution variants: an error reported by the client is raised
(`Except.error`), otherwise the data is returned. -/
def throwOnError (r : QueryResult) : Except String (Option String) :=
  match r.error with
  | Option.some e => Except.error e
  | Option.none => Except.ok r.data

/-- Modelled from the spec: the `.oneOrThrow()` execution variant. -/
def SelectQuery.oneOrThrow (q : SelectQuery) : Except String (Option String) :=
  throwOnError q.one

/-- Modelled from the spec: the `.manyOrThrow()` execution variant. -/
def SelectQuery.manyOrThrow (q : SelectQuery) : Except String (Option String) :=
  throwOnError q.many

/-- Modelled from the spec: the `.firstOrThrow()` execution variant. -/
def SelectQuery.firstOrThrow (q : SelectQuery) : Except String (Option String) :=
  throwOnError q.first

/-- The mutation query a mutation operation returns, with its execution
and `OrThrow` execution. -/
structure MutationQuery where
  client : Client
  table : String
  calls : List BuilderCall

/-- Modelled from the spec: the mutation execution — the chain answered
by the wrapped client and returned unchanged, error as a value. -/
def MutationQuery.exec (q : MutationQuery) : QueryResult :=
  q.client.respond q.table q.calls

/-- Modelled from the spec: the mutation `OrThrow` execution variant. -/
def MutationQuery.execOrThrow (q : MutationQuery) : Except String (Option String) :=
  throwOnError q.exec

/-- Modelled from the spec: `makeGetItem` from the missing `entity/core`
module.  The `schema` argument of the generic instantiation carries no
call-sequence effect: the spec's core mapping names only `where`, `is`,
`wherein`, `order` and the soft-delete mode. -/
def makeGetItem (client : Client) (name : String) (mode : SoftDeleteMode)
    (schema : Option String) : GetItemParams → SelectQuery :=
  fun p => SelectQuery.mk client name (getItemCalls mode p)

/-- Modelled from the spec: `makeGetItems` from the missing
`entity/core` module. -/
def makeGetItems (client : Client) (name : String) (mode : SoftDeleteMode)
    (schema : Option String) : GetItemsParams → SelectQuery :=
  fun p => SelectQuery.mk client name (getItemsCalls mode p)

/-- Modelled from the spec: `makeAddItems` from the missing
`entity/core` module. -/
def makeAddItems (client : Client) (name : String)
    (schema : Option String) : AddItemsParams → MutationQuery :=
  fun p => MutationQuery.mk client name (addItemsCalls p)

/-- Modelled from the spec: `makeUpdateItem` from the missing
`entity/core` module. -/
def makeUpdateItem (client : Client) (name : String)
    (schema : Option String) : UpdateItemParams → MutationQuery :=
  fun p => MutationQuery.mk client name (updateItemCalls p)

/-- Modelled from the spec: `makeUpdateItems` from the missing
`entity/core` module. -/
def makeUpdateItems (client : Client) (name : String)
    (schema : Option String) : UpdateItemsParams → MutationQuery :=
  fun p => MutationQuery.mk client name (updateItemsCalls p)

/-- Modelled from the spec: `makeUpsertItems` from the missing
`entity/core` module. -/
def makeUpsertItems (client : Client) (name : String)
    (schema : Option String) : UpsertItemsParams → MutationQuery :=
  fun p => MutationQuery.mk client name (upsertItemsCalls p)

/-- Modelled from the spec: `makeDeleteItem` from the missing
`entity/core` module. -/
def makeDeleteItem (client : Client) (name : String)
    (schema : Option String) : DeleteItemParams → MutationQuery :=
  fun p => MutationQuery.mk client name (deleteItemCalls p)

/-- Modelled from the spec: `makeDeleteItems` from the missing
`entity/core` module. -/
def makeDeleteItems (client : Client) (name : String)
    (schema : Option String) : DeleteItemsParams → MutationQuery :=
  fun p => MutationQuery.mk client name (deleteItemsCalls p)

/-- The object returned by the non-generic factory of
`src/entity/Entity.ts` (lines 59-94): its five operations. -/
structure IEntity where
  getItem : GetItemParams → SelectQuery
  getItems : GetItemsParams → SelectQuery
  addItems : AddItemsParams → MutationQuery
  updateItem : UpdateItemParams → MutationQuery
  updateItems : UpdateItemsParams → MutationQuery

/-- The object returned by the schema-generic factory of the unnamed
source file (lines 78-134): its eight operations. -/
structure IEntityG where
  getItem : GetItemParams → SelectQuery
  getItems : GetItemsParams → SelectQuery
  addItems : AddItemsParams → MutationQuery
  updateItem : UpdateItemParams → MutationQuery
  updateItems : UpdateItemsParams → MutationQuery
  upsertItems : UpsertItemsParams → MutationQuery
  deleteItem : DeleteItemParams → MutationQuery
  deleteItems : DeleteItemsParams → MutationQuery

/-- The non-generic `Entity` factory of `src/entity/Entity.ts`
(lines 56-95): computes the soft-delete mode from the config and wires
the five maker functions, passing no schema. -/
def Entity (client : Client) (name : String) (config : EntityConfig) : IEntity :=
  let softDeleteMode := getSoftDeleteMode config.softDelete
  { getItem := makeGetItem client name softDeleteMode Option.none
    getItems := makeGetItems client name softDeleteMode Option.none
    addItems := makeAddItems client name Option.none
    updateItem := makeUpdateItem client name Option.none
    updateItems := makeUpdateItems client name Option.none }

/-- The schema-generic `Entity` factory of the unnamed source file
(lines 70-135): computes the soft-delete mode, destructures
`config.schema`, and wires the eight maker functions. -/
def EntityG (client : Client) (name : String) (config : EntityConfig) : IEntityG :=
  let softDeleteMode := getSoftDeleteMode config.softDelete
  let schema := config.schema
  { getItem := makeGetItem client name softDeleteMode schema
    getItems := makeGetItems client name softDeleteMode schema
    addItems := makeAddItems client name schema
    updateItem := makeUpdateItem client name schema
    updateItems := makeUpdateItems client name schema
    upsertItems := makeUpsertItems client name schema
    deleteItem := makeDeleteItem client name schema
    deleteItems := makeDeleteItems client name schema }

/-- The property names of the object the non-generic `Entity` factory
returns, in source order (`src/entity/Entity.ts` lines 59-94). -/
def entityOpNames : List String :=
  ["getItem", "getItems", "addItems", "updateItem", "updateItems"]

/-- The property names of the object the schema-generic `Entity`
factory returns, in source order (unnamed source file lines 78-134). -/
def entityGOpNames : List String :=
  ["getItem", "getItems", "addItems", "updateItem", "updateItems",
   "upsertItems", "deleteItem", "deleteItems"]

/-- The CRUD operation set the spec names: get one/many, add, update
(single and bulk), upsert, delete (single and bulk). -/
def specCrudOpNames : List String :=
  ["getItem", "getItems", "addItems", "updateItem", "updateItems",
   "upsertItems", "deleteItem", "deleteItems"]

/-- The six parameter-object fields the spec's interface section names. -/
def allowedParamFields : List String :=
  ["id", "where", "is", "wherein", "order", "items"]

/-- Field names of `GetItemParams` (id, where conditions, is
conditions, per the `getItem` doc comment in both factories). -/
def getItemParamFields : List String := ["id", "where", "is"]

/-- Field names of `GetItemsParams` (where, is, wherein, order, per the
`getItems` doc comment in both factories). -/
def getItemsParamFields : List String := ["where", "is", "wherein", "order"]

/-- Field names of `AddItemsParams` (items array, per the `addItems`
doc comment in both factories). -/
def addItemsParamFields : List String := ["items"]

/-- Field names of `UpdateItemParams` (id, item data, optional filters,
per the `updateItem` doc comment in both factories). -/
def updateItemParamFields : List String := ["id", "item", "where", "is"]

/-- Field names of `UpdateItemsParams` (items array, identity, optional
filters, per the `updateItems` doc comment in both factories). -/
def updateItemsParamFields : List String := ["items", "identity", "where", "is"]

/-- Field names of `UpsertItemsParams` (items array and identity
columns, per the `upsertItems` doc comment in the generic factory). -/
def upsertItemsParamFields : List String := ["items", "identity"]

/-- Field names of `DeleteItemParams` (where conditions, per the
`deleteItem` doc comment in the generic factory). -/
def deleteItemParamFields : List String := ["where"]

/-- Field names of `DeleteItemsParams` (where conditions, per the
`deleteItems` doc comment in the generic factory). -/
def deleteItemsParamFields : List String := ["where"]

/-- The description of one table in the schema: its row, insert and
update shapes, after the `Tables` record entries of `DatabaseSchema` in
`src/types.ts` (lines 13-28).  A shape is embedded as a field list. -/
structure TableDef where
  Row : List (String × String)
  Insert : List (String × String)
  Update : List (String × String)
deriving DecidableEq, Repr

/-- A database schema description, after `DatabaseSchema` in
`src/types.ts`: the `public.Tables` record, embedded as an association
list from table name to table description. -/
structure DatabaseSchema where
  tables : List (String × TableDef)
deriving DecidableEq, Repr

/-- `TableNames` of `src/types.ts` (line 59): the string keys of the
schema's `Tables` record. -/
def TableNames (db : DatabaseSchema) : List String :=
  db.tables.map Prod.fst

/-- `TableRow` of `src/types.ts` (line 66): the `Row` entry of the
schema's `Tables` record at the table name. -/
def TableRow (db : DatabaseSchema) (t : String) : Option (List (String × String)) :=
  (db.tables.lookup t).map TableDef.Row

/-- `TableInsert` of `src/types.ts` (lines 73-76): the `Insert` entry
of the schema's `Tables` record at the table name. -/
def TableInsert (db : DatabaseSchema) (t : String) : Option (List (String × String)) :=
  (db.tables.lookup t).map TableDef.Insert

/-- `TableUpdate` of `src/types.ts` (lines 83-86): the `Update` entry
of the schema's `Tables` record at the table name. -/
def TableUpdate (db : DatabaseSchema) (t : String) : Option (List (String × String)) :=
  (db.tables.lookup t).map TableDef.Update

/-- Chained single-call appends collapse to an appended map: the core
shape of every filter-chain computation. -/
theorem foldl_append_singleton {α : Type} (f : α → BuilderCall) :
    ∀ (l : List α) (acc : List BuilderCall),
      l.foldl (fun a x => a ++ [f x]) acc = acc ++ l.map f := by
  intro l
  induction l with
  | nil => intro acc; simp
  | cons h t ih => intro acc; simp [List.foldl, ih]

/-- The `where` chain is the mapped `eq` sequence. -/
theorem applyWhere_eq_map (acc : List BuilderCall) (ws : List (String × String)) :
    applyWhere acc ws = acc ++ ws.map (fun w => BuilderCall.eq w.1 w.2) := by
  unfold applyWhere
  exact foldl_append_singleton (fun w => BuilderCall.eq w.1 w.2) ws acc

/-- The `is` chain is the mapped `is` sequence. -/
theorem applyIs_eq_map (acc : List BuilderCall) (ws : List (String × Option Bool)) :
    applyIs acc ws = acc ++ ws.map (fun w => BuilderCall.is w.1 w.2) := by
  unfold applyIs
  exact foldl_append_singleton (fun w => BuilderCall.is w.1 w.2) ws acc

/-- The `wherein` chain is the mapped `in` sequence. -/
theorem applyWherein_eq_map (acc : List BuilderCall) (ws : List (String × List String)) :
    applyWherein acc ws = acc ++ ws.map (fun w => BuilderCall.in' w.1 w.2) := by
  unfold applyWherein
  exact foldl_append_singleton (fun w => BuilderCall.in' w.1 w.2) ws acc

/-- The `order` chain is the mapped `order` sequence. -/
theorem applyOrder_eq_map (acc : List BuilderCall) (ws : List (String × Bool)) :
    applyOrder acc ws = acc ++ ws.map (fun w => BuilderCall.order w.1 w.2) := by
  unfold applyOrder
  exact foldl_append_singleton (fun w => BuilderCall.order w.1 w.2) ws acc

/-- The non-OrThrow result keeps the client's error as a value, and the
OrThrow variant raises exactly that error: the faithfulness relation
between a returned result and its OrThrow counterpart. -/
def faithfulThrow (r : QueryResult) (ex : Except String (Option String)) : Prop :=
  (∀ e, r.error = Option.some e ↔ ex = Except.error e)
    ∧ (r.error = Option.none ↔ ex = Except.ok r.data)

/-- `throwOnError` is faithful to every result. -/
theorem throwOnError_faithful (r : QueryResult) : faithfulThrow r (throwOnError r) := by
  constructor
  · intro e; cases hr : r.error <;> simp [throwOnError, hr]
  · cases hr : r.error <;> simp [throwOnError, hr]

/-- Claim C1: for every parameter object passed to a generated get
operation (getItem or getItems), the chained filter-builder call
sequence matches the parameter object: each `where` entry yields one
equality filter on its column and value, each `is` entry one `is`
filter, each `wherein` entry one `in` filter, each `order` entry one
`order` call with its direction, and the soft-delete filter is added
exactly when soft delete is configured. -/
theorem C1_get_call_sequence_matches_params (c : Client) (n : String)
    (cfg : EntityConfig) (ps : GetItemsParams) (pg : GetItemParams) :
    ((Entity c n cfg).getItems ps).calls =
        [BuilderCall.select "*"]
          ++ ps.where_.map (fun w => BuilderCall.eq w.1 w.2)
          ++ ps.is.map (fun w => BuilderCall.is w.1 w.2)
          ++ ps.wherein.map (fun w => BuilderCall.in' w.1 w.2)
          ++ ps.order.map (fun w => BuilderCall.order w.1 w.2)
          ++ (if cfg.softDelete then [softDeleteFilter] else [])
      ∧ ((Entity c n cfg).getItem pg).calls =
        applyId [BuilderCall.select "*"] pg.id
          ++ pg.where_.map (fun w => BuilderCall.eq w.1 w.2)
          ++ pg.is.map (fun w => BuilderCall.is w.1 w.2)
          ++ (if cfg.softDelete then [softDeleteFilter] else []) := by
  cases hs : cfg.softDelete <;>
    simp [Entity, makeGetItems, makeGetItem, getItemsCalls, getItemCalls,
      getSoftDeleteMode, applySoftDelete, hs,
      applyWhere_eq_map, applyIs_eq_map, applyWherein_eq_map, applyOrder_eq_map]

/-- Claim C3: with soft delete configured, every getItem and getItems
query appends the filter excluding logically deleted rows to the
parameter-derived call sequence; without soft delete the sequence is
exactly the unfiltered one and no such filter is appended. -/
theorem C3_soft_delete_filtering (c : Client) (n : String)
    (cfg : EntityConfig) (ps : GetItemsParams) (pg : GetItemParams) :
    ((Entity c n cfg).getItems ps).calls =
        getItemsCalls SoftDeleteMode.disabled ps
          ++ (if cfg.softDelete then [softDeleteFilter] else [])
      ∧ ((Entity c n cfg).getItem pg).calls =
        getItemCalls SoftDeleteMode.disabled pg
          ++ (if cfg.softDelete then [softDeleteFilter] else []) := by
  cases hs : cfg.softDelete <;>
    simp [Entity, makeGetItems, makeGetItem, getItemsCalls, getItemCalls,
      getSoftDeleteMode, applySoftDelete, hs]

/-- Claim C4: for every operation of both factories, the non-OrThrow
execution returns the wrapped client's error as a value without
raising, and the OrThrow variant raises exactly the client's error:
an execution raises if and only if the caller selected an OrThrow
variant and the client reported an error. -/
theorem C4_error_propagation (c : Client) (n : String) (cfg : EntityConfig)
    (pg : GetItemParams) (ps : GetItemsParams) (pa : AddItemsParams)
    (pu : UpdateItemParams) (pus : UpdateItemsParams) (pup : UpsertItemsParams)
    (pd : DeleteItemParams) (pds : DeleteItemsParams) :
    faithfulThrow ((EntityG c n cfg).getItem pg).one ((EntityG c n cfg).getItem pg).oneOrThrow
      ∧ faithfulThrow ((EntityG c n cfg).getItem pg).many ((EntityG c n cfg).getItem pg).manyOrThrow
      ∧ faithfulThrow ((EntityG c n cfg).getItem pg).first ((EntityG c n cfg).getItem pg).firstOrThrow
      ∧ faithfulThrow ((EntityG c n cfg).getItems ps).one ((EntityG c n cfg).getItems ps).oneOrThrow
      ∧ faithfulThrow ((EntityG c n cfg).getItems ps).many ((EntityG c n cfg).getItems ps).manyOrThrow
      ∧ faithfulThrow ((EntityG c n cfg).getItems ps).first ((EntityG c n cfg).getItems ps).firstOrThrow
      ∧ faithfulThrow ((EntityG c n cfg).addItems pa).exec ((EntityG c n cfg).addItems pa).execOrThrow
      ∧ faithfulThrow ((EntityG c n cfg).updateItem pu).exec ((EntityG c n cfg).updateItem pu).execOrThrow
      ∧ faithfulThrow ((EntityG c n cfg).updateItems pus).exec ((EntityG c n cfg).updateItems pus).execOrThrow
      ∧ faithfulThrow ((EntityG c n cfg).upsertItems pup).exec ((EntityG c n cfg).upsertItems pup).execOrThrow
      ∧ faithfulThrow ((EntityG c n cfg).deleteItem pd).exec ((EntityG c n cfg).deleteItem pd).execOrThrow
      ∧ faithfulThrow ((EntityG c n cfg).deleteItems pds).exec ((EntityG c n cfg).deleteItems pds).execOrThrow
      ∧ faithfulThrow ((Entity c n cfg).getItem pg).one ((Entity c n cfg).getItem pg).oneOrThrow
      ∧ faithfulThrow ((Entity c n cfg).getItems ps).many ((Entity c n cfg).getItems ps).manyOrThrow
      ∧ faithfulThrow ((Entity c n cfg).addItems pa).exec ((Entity c n cfg).addItems pa).execOrThrow
      ∧ faithfulThrow ((Entity c n cfg).updateItem pu).exec ((Entity c n cfg).updateItem pu).execOrThrow
      ∧ faithfulThrow ((Entity c n cfg).updateItems pus).exec ((Entity c n cfg).updateItems pus).execOrThrow :=
  ⟨throwOnError_faithful _, throwOnError_faithful _, throwOnError_faithful _,
   throwOnError_faithful _, throwOnError_faithful _, throwOnError_faithful _,
   throwOnError_faithful _, throwOnError_faithful _, throwOnError_faithful _,
   throwOnError_faithful _, throwOnError_faithful _, throwOnError_faithful _,
   throwOnError_faithful _, throwOnError_faithful _, throwOnError_faithful _,
   throwOnError_faithful _, throwOnError_faithful _⟩

/-- Claim C5: every generated operation of both factories delegates to
the wrapped client: its chain is rooted at `client.from` applied to the
entity's table name (the query records that table and that client), and
its execution returns the client's response to the chained calls
unchanged. -/
theorem C5_delegates_to_client (c : Client) (n : String) (cfg : EntityConfig)
    (pg : GetItemParams) (ps : GetItemsParams) (pa : AddItemsParams)
    (pu : UpdateItemParams) (pus : UpdateItemsParams) (pup : UpsertItemsParams)
    (pd : DeleteItemParams) (pds : DeleteItemsParams) :
    (((EntityG c n cfg).getItem pg).table = n ∧ ((EntityG c n cfg).getItem pg).client = c
        ∧ ((EntityG c n cfg).getItem pg).many = c.respond n ((EntityG c n cfg).getItem pg).calls)
      ∧ (((EntityG c n cfg).getItems ps).table = n ∧ ((EntityG c n cfg).getItems ps).client = c
        ∧ ((EntityG c n cfg).getItems ps).many = c.respond n ((EntityG c n cfg).getItems ps).calls)
      ∧ (((EntityG c n cfg).addItems pa).table = n ∧ ((EntityG c n cfg).addItems pa).client = c
        ∧ ((EntityG c n cfg).addItems pa).exec = c.respond n ((EntityG c n cfg).addItems pa).calls)
      ∧ (((EntityG c n cfg).updateItem pu).table = n ∧ ((EntityG c n cfg).updateItem pu).client = c
        ∧ ((EntityG c n cfg).updateItem pu).exec = c.respond n ((EntityG c n cfg).updateItem pu).calls)
      ∧ (((EntityG c n cfg).updateItems pus).table = n ∧ ((EntityG c n cfg).updateItems pus).client = c
        ∧ ((EntityG c n cfg).updateItems pus).exec = c.respond n ((EntityG c n cfg).updateItems pus).calls)
      ∧ (((EntityG c n cfg).upsertItems pup).table = n ∧ ((EntityG c n cfg).upsertItems pup).client = c
        ∧ ((EntityG c n cfg).upsertItems pup).exec = c.respond n ((EntityG c n cfg).upsertItems pup).calls)
      ∧ (((EntityG c n cfg).deleteItem pd).table = n ∧ ((EntityG c n cfg).deleteItem pd).client = c
        ∧ ((EntityG c n cfg).deleteItem pd).exec = c.respond n ((EntityG c n cfg).deleteItem pd).calls)
      ∧ (((EntityG c n cfg).deleteItems pds).table = n ∧ ((EntityG c n cfg).deleteItems pds).client = c
        ∧ ((EntityG c n cfg).deleteItems pds).exec = c.respond n ((EntityG c n cfg).deleteItems pds).calls)
      ∧ (((Entity c n cfg).getItem pg).table = n ∧ ((Entity c n cfg).getItem pg).client = c
        ∧ ((Entity c n cfg).getItem pg).many = c.respond n ((Entity c n cfg).getItem pg).calls)
      ∧ (((Entity c n cfg).getItems ps).table = n ∧ ((Entity c n cfg).getItems ps).client = c
        ∧ ((Entity c n cfg).getItems ps).many = c.respond n ((Entity c n cfg).getItems ps).calls)
      ∧ (((Entity c n cfg).addItems pa).table = n ∧ ((Entity c n cfg).addItems pa).client = c
        ∧ ((Entity c n cfg).addItems pa).exec = c.respond n ((Entity c n cfg).addItems pa).calls)
      ∧ (((Entity c n cfg).updateItem pu).table = n ∧ ((Entity c n cfg).updateItem pu).client = c
        ∧ ((Entity c n cfg).updateItem pu).exec = c.respond n ((Entity c n cfg).updateItem pu).calls)
      ∧ (((Entity c n cfg).updateItems pus).table = n ∧ ((Entity c n cfg).updateItems pus).client = c
        ∧ ((Entity c n cfg).updateItems pus).exec = c.respond n ((Entity c n cfg).updateItems pus).calls) := by
  repeat' apply And.intro
  all_goals rfl

/-- Claim C2 counterexample: the claim fails on the non-generic
`Entity` factory of `src/entity/Entity.ts` — its returned object does
not provide the full CRUD set the spec names, since `upsertItems`,
`deleteItem` and `deleteItems` are not among its operations. -/
theorem C2_counterexample : ¬ specCrudOpNames ⊆ entityOpNames := by
  intro h
  exact absurd (h (show "upsertItems" ∈ specCrudOpNames by decide)) (by decide)

/-- Claim C2 amended: the schema-generic `Entity` factory provides the
full CRUD set the spec names, and the non-generic factory provides
exactly the five operations getItem, getItems, addItems, updateItem and
updateItems, omitting upsertItems, deleteItem and deleteItems; the
generic factory's extra operations are real operations on the entity's
table. -/
theorem C2_crud_surface (c : Client) (n : String) (cfg : EntityConfig)
    (pup : UpsertItemsParams) (pd : DeleteItemParams) (pds : DeleteItemsParams) :
    specCrudOpNames ⊆ entityGOpNames
      ∧ entityOpNames ⊆ specCrudOpNames
      ∧ "upsertItems" ∉ entityOpNames
      ∧ "deleteItem" ∉ entityOpNames
      ∧ "deleteItems" ∉ entityOpNames
      ∧ ((EntityG c n cfg).upsertItems pup).table = n
      ∧ ((EntityG c n cfg).deleteItem pd).table = n
      ∧ ((EntityG c n cfg).deleteItems pds).table = n := by
  refine ⟨?_, ?_, ?_, ?_, ?_, rfl, rfl, rfl⟩ <;> decide

/-- Claim C6 counterexample: the claim's field restriction fails —
the parameter object of `updateItems` carries the `identity` field,
which is not among the six fields the claim allows. -/
theorem C6_counterexample : ¬ updateItemsParamFields ⊆ allowedParamFields := by
  intro h
  exact absurd (h (show "identity" ∈ updateItemsParamFields by decide)) (by decide)

/-- Claim C6 amended: each get method returns a chainable execution
object exposing one, many and first with their OrThrow variants; the
get, add and delete methods accept only parameter objects built from
the fields id, where, is, wherein, order and items as appropriate, but
the update and upsert methods additionally accept item data (`item`)
and identity columns (`identity`) beyond those six fields. -/
theorem C6_execution_surface_and_fields (c : Client) (n : String)
    (cfg : EntityConfig) (pg : GetItemParams) (ps : GetItemsParams) :
    getItemParamFields ⊆ allowedParamFields
      ∧ getItemsParamFields ⊆ allowedParamFields
      ∧ addItemsParamFields ⊆ allowedParamFields
      ∧ deleteItemParamFields ⊆ allowedParamFields
      ∧ deleteItemsParamFields ⊆ allowedParamFields
      ∧ "item" ∈ updateItemParamFields ∧ "item" ∉ allowedParamFields
      ∧ "identity" ∈ updateItemsParamFields
      ∧ "identity" ∈ upsertItemsParamFields
      ∧ "identity" ∉ allowedParamFields
      ∧ ((Entity c n cfg).getItem pg).one
          = c.respond n (((Entity c n cfg).getItem pg).calls ++ [BuilderCall.single])
      ∧ ((Entity c n cfg).getItem pg).many
          = c.respond n ((Entity c n cfg).getItem pg).calls
      ∧ ((Entity c n cfg).getItem pg).first
          = c.respond n (((Entity c n cfg).getItem pg).calls ++ [BuilderCall.limit 1])
      ∧ ((Entity c n cfg).getItem pg).oneOrThrow = throwOnError ((Entity c n cfg).getItem pg).one
      ∧ ((Entity c n cfg).getItem pg).manyOrThrow = throwOnError ((Entity c n cfg).getItem pg).many
      ∧ ((Entity c n cfg).getItem pg).firstOrThrow = throwOnError ((Entity c n cfg).getItem pg).first
      ∧ ((EntityG c n cfg).getItems ps).one
          = c.respond n (((EntityG c n cfg).getItems ps).calls ++ [BuilderCall.single])
      ∧ ((EntityG c n cfg).getItems ps).many
          = c.respond n ((EntityG c n cfg).getItems ps).calls
      ∧ ((EntityG c n cfg).getItems ps).first
          = c.respond n (((EntityG c n cfg).getItems ps).calls ++ [BuilderCall.limit 1])
      ∧ ((EntityG c n cfg).getItems ps).oneOrThrow = throwOnError ((EntityG c n cfg).getItems ps).one
      ∧ ((EntityG c n cfg).getItems ps).manyOrThrow = throwOnError ((EntityG c n cfg).getItems ps).many
      ∧ ((EntityG c n cfg).getItems ps).firstOrThrow = throwOnError ((EntityG c n cfg).getItems ps).first := by
  refine ⟨?_, ?_, ?_, ?_, ?_, ?_, ?_, ?_, ?_, ?_,
    rfl, rfl, rfl, rfl, rfl, rfl, rfl, rfl, rfl, rfl, rfl, rfl⟩ <;> decide

/-- Claim C7: the layer is stateless — each operation's output is the
pure record of its inputs (client, table name, config-derived mode and
parameters), so two invocations with the same inputs give the same
query, and the emitted call sequence does not depend on the client at
all. -/
theorem C7_stateless_deterministic (c c' : Client) (n : String) (cfg : EntityConfig)
    (pg : GetItemParams) (ps : GetItemsParams) (pa : AddItemsParams)
    (pu : UpdateItemParams) (pus : UpdateItemsParams) (pup : UpsertItemsParams)
    (pd : DeleteItemParams) (pds : DeleteItemsParams) :
    (Entity c n cfg).getItem pg
        = SelectQuery.mk c n (getItemCalls (getSoftDeleteMode cfg.softDelete) pg)
      ∧ (Entity c n cfg).getItems ps
        = SelectQuery.mk c n (getItemsCalls (getSoftDeleteMode cfg.softDelete) ps)
      ∧ (Entity c n cfg).addItems pa = MutationQuery.mk c n (addItemsCalls pa)
      ∧ (Entity c n cfg).updateItem pu = MutationQuery.mk c n (updateItemCalls pu)
      ∧ (Entity c n cfg).updateItems pus = MutationQuery.mk c n (updateItemsCalls pus)
      ∧ (EntityG c n cfg).upsertItems pup = MutationQuery.mk c n (upsertItemsCalls pup)
      ∧ (EntityG c n cfg).deleteItem pd = MutationQuery.mk c n (deleteItemCalls pd)
      ∧ (EntityG c n cfg).deleteItems pds = MutationQuery.mk c n (deleteItemsCalls pds)
      ∧ ((Entity c n cfg).getItem pg).calls = ((Entity c' n cfg).getItem pg).calls
      ∧ ((Entity c n cfg).getItems ps).calls = ((Entity c' n cfg).getItems ps).calls
      ∧ ((Entity c n cfg).addItems pa).calls = ((Entity c' n cfg).addItems pa).calls
      ∧ ((Entity c n cfg).updateItem pu).calls = ((Entity c' n cfg).updateItem pu).calls
      ∧ ((Entity c n cfg).updateItems pus).calls = ((Entity c' n cfg).updateItems pus).calls
      ∧ ((EntityG c n cfg).upsertItems pup).calls = ((EntityG c' n cfg).upsertItems pup).calls
      ∧ ((EntityG c n cfg).deleteItem pd).calls = ((EntityG c' n cfg).deleteItem pd).calls
      ∧ ((EntityG c n cfg).deleteItems pds).calls = ((EntityG c' n cfg).deleteItems pds).calls := by
  repeat' apply And.intro
  all_goals rfl

/-- A successful lookup in a string-keyed association list puts the key
among the mapped-out keys. -/
theorem lookup_some_mem_keys :
    ∀ (l : List (String × TableDef)) (t : String) (d : TableDef),
      l.lookup t = Option.some d → t ∈ l.map Prod.fst := by
  intro l
  induction l with
  | nil => intro t d h; simp [List.lookup] at h
  | cons hd tl ih =>
    intro t d h
    rcases hd with ⟨k, v⟩
    by_cases hk : t = k
    · simp [hk]
    · rw [List.lookup] at h
      have hbeq : (t == k) = false := beq_false_of_ne hk
      rw [hbeq] at h
      exact List.mem_cons_of_mem _ (ih t d h)

/-- Claim C8: the derived table types are exactly the externally
supplied shapes — a table name with a schema entry is among the
schema's table names, its Row, Insert and Update derivations return
that entry's shapes unchanged, and the table names are exactly the
string keys of the Tables record. -/
theorem C8_table_types_from_schema (db : DatabaseSchema) (t : String) (d : TableDef)
    (h : db.tables.lookup t = Option.some d) :
    t ∈ TableNames db
      ∧ TableRow db t = Option.some d.Row
      ∧ TableInsert db t = Option.some d.Insert
      ∧ TableUpdate db t = Option.some d.Update
      ∧ ∀ s : String, s ∈ TableNames db ↔ ∃ e : TableDef, (s, e) ∈ db.tables := by
  refine ⟨lookup_some_mem_keys db.tables t d h, ?_, ?_, ?_, ?_⟩
  · simp [TableRow, h]
  · simp [TableInsert, h]
  · simp [TableUpdate, h]
  · intro s
    constructor
    · intro hs
      rcases List.mem_map.mp hs with ⟨⟨a, b⟩, hmem, hfst⟩
      exact ⟨b, by simpa [← hfst] using hmem⟩
    · rintro ⟨e, he⟩
      exact List.mem_map.mpr ⟨(s, e), he, rfl⟩

/-- Witness for claim C8 at a one-table schema. -/
theorem C8_witness :
    "users" ∈ TableNames (DatabaseSchema.mk
        [("users", TableDef.mk [("id", "uuid")] [("id", "uuid")] [("name", "text")])])
      ∧ TableRow (DatabaseSchema.mk
        [("users", TableDef.mk [("id", "uuid")] [("id", "uuid")] [("name", "text")])]) "users"
        = Option.some [("id", "uuid")] := by
  have h := C8_table_types_from_schema
    (DatabaseSchema.mk [("users", TableDef.mk [("id", "uuid")] [("id", "uuid")] [("name", "text")])])
    "users" (TableDef.mk [("id", "uuid")] [("id", "uuid")] [("name", "text")]) (by decide)
  exact ⟨h.1, h.2.1⟩

/-- Claim C9: the schema-generic factory instantiated at the default
schema and the non-generic factory agree on the five operations both
provide — same queries, hence same call sequences and same execution
results, for the same client, table name, config and parameters. -/
theorem C9_factories_agree (c : Client) (n : String) (cfg : EntityConfig)
    (pg : GetItemParams) (ps : GetItemsParams) (pa : AddItemsParams)
    (pu : UpdateItemParams) (pus : UpdateItemsParams) :
    (Entity c n cfg).getItem pg = (EntityG c n cfg).getItem pg
      ∧ (Entity c n cfg).getItems ps = (EntityG c n cfg).getItems ps
      ∧ (Entity c n cfg).addItems pa = (EntityG c n cfg).addItems pa
      ∧ (Entity c n cfg).updateItem pu = (EntityG c n cfg).updateItem pu
      ∧ (Entity c n cfg).updateItems pus = (EntityG c n cfg).updateItems pus
      ∧ ((Entity c n cfg).getItems ps).many = ((EntityG c n cfg).getItems ps).many
      ∧ ((Entity c n cfg).addItems pa).exec = ((EntityG c n cfg).addItems pa).exec := by
  repeat' apply And.intro
  all_goals rfl

/-- Claim C10: the soft-delete setting influences only the read
operations — for two configs sharing a schema and differing only in
softDelete, every mutation operation of both factories produces the
same query, hence the same call sequence and the same result. -/
theorem C10_mutations_ignore_soft_delete (c : Client) (n : String)
    (sd sd' : Bool) (sch : Option String) (pa : AddItemsParams)
    (pu : UpdateItemParams) (pus : UpdateItemsParams) (pup : UpsertItemsParams)
    (pd : DeleteItemParams) (pds : DeleteItemsParams) :
    (EntityG c n (EntityConfig.mk sd sch)).addItems pa
        = (EntityG c n (EntityConfig.mk sd' sch)).addItems pa
      ∧ (EntityG c n (EntityConfig.mk sd sch)).updateItem pu
        = (EntityG c n (EntityConfig.mk sd' sch)).updateItem pu
      ∧ (EntityG c n (EntityConfig.mk sd sch)).updateItems pus
        = (EntityG c n (EntityConfig.mk sd' sch)).updateItems pus
      ∧ (EntityG c n (EntityConfig.mk sd sch)).upsertItems pup
        = (EntityG c n (EntityConfig.mk sd' sch)).upsertItems pup
      ∧ (EntityG c n (EntityConfig.mk sd sch)).deleteItem pd
        = (EntityG c n (EntityConfig.mk sd' sch)).deleteItem pd
      ∧ (EntityG c n (EntityConfig.mk sd sch)).deleteItems pds
        = (EntityG c n (EntityConfig.mk sd' sch)).deleteItems pds
      ∧ (Entity c n (EntityConfig.mk sd sch)).addItems pa
        = (Entity c n (EntityConfig.mk sd' sch)).addItems pa
      ∧ (Entity c n (EntityConfig.mk sd sch)).updateItem pu
        = (Entity c n (EntityConfig.mk sd' sch)).updateItem pu
      ∧ (Entity c n (EntityConfig.mk sd sch)).updateItems pus
        = (Entity c n (EntityConfig.mk sd' sch)).updateItems pus
      ∧ ((EntityG c n (EntityConfig.mk sd sch)).deleteItems pds).exec
        = ((EntityG c n (EntityConfig.mk sd' sch)).deleteItems pds).exec := by
  repeat' apply And.intro
  all_goals rfl
